import Mathlib

/-!
Shallow embedding of the ADK cross-context communication layer:
the `useAdkCommunication` React hook and the `AdkEmbed` component.
Pure state is made explicit: React `useState` cells become fields of a
`HookState` record, `useCallback` closures become functions taking the
current state, and the browser environment (own origin, current time,
whether `iframeRef.current?.contentWindow` is non-null, fetch results)
is passed in as explicit parameters.
-/

/-- Context record `AdkContext`: five optional string keys.  `none` models an absent key. -/
structure AdkContext where
  agentName : Option String := none
  sessionToken : Option String := none
  userId : Option String := none
  applicationId : Option String := none
  controlId : Option String := none
deriving DecidableEq, Repr

/-- The payload of an envelope (`payload?: any` in the source).  Only the
shapes that actually occur in the embedded code are modelled: absent,
a context object (for `initialize` / `context_update`), or an opaque
string blob for everything else. -/
inductive Payload where
  | absent : Payload
  | ctx : AdkContext → Payload
  | blob : String → Payload
deriving DecidableEq, Repr

/-- Envelope record `AdkMessage`: `{ type, payload?, source?, timestamp? }`. -/
structure AdkMessage where
  type : String
  payload : Payload := .absent
  source : Option String := none
  timestamp : Option Nat := none
deriving DecidableEq, Repr

/-- Delta record for `Partial<AdkContext>`: a key is present exactly when the field is
`some`; the merge in `updateContext` overwrites present keys only. -/
structure AdkContextDelta where
  agentName : Option String := none
  sessionToken : Option String := none
  userId : Option String := none
  applicationId : Option String := none
  controlId : Option String := none
deriving DecidableEq, Repr

/-- One key of a JS object spread `{...c, ...p}`: the right operand wins
when the key is present there. -/
def overwrite (old upd : Option String) : Option String :=
  match upd with
  | some v => some v
  | none => old

/-- The shallow merge `{...context, ...newContext}` from `updateContext`
(src/next.config.js line 110), keywise. -/
def mergeContext (c : AdkContext) (p : AdkContextDelta) : AdkContext where
  agentName := overwrite c.agentName p.agentName
  sessionToken := overwrite c.sessionToken p.sessionToken
  userId := overwrite c.userId p.userId
  applicationId := overwrite c.applicationId p.applicationId
  controlId := overwrite c.controlId p.controlId

/-- Status type of `connectionStatus`: 'connected' | 'disconnected' | 'error'. -/
inductive ConnStatus where
  | connected : ConnStatus
  | disconnected : ConnStatus
  | error : ConnStatus
deriving DecidableEq, Repr

/-- A `postMessage` dispatch observed at the iframe boundary: the stamped
envelope together with the `targetOrigin` argument. -/
structure Dispatch where
  msg : AdkMessage
  targetOrigin : String
deriving DecidableEq, Repr

/-- The mutable state of `useAdkCommunication`: the four `useState` cells,
plus the ghost trace `dispatched` recording every `postMessage` call. -/
structure HookState where
  isConnected : Bool
  connectionStatus : ConnStatus
  messages : List AdkMessage
  context : AdkContext
  dispatched : List Dispatch
deriving DecidableEq, Repr

/-- Initial hook state: `isConnected = false`,
`connectionStatus = 'disconnected'`, empty message log, the supplied
initial context, nothing dispatched yet. -/
def initHookState (initialContext : AdkContext) : HookState where
  isConnected := false
  connectionStatus := .disconnected
  messages := []
  context := initialContext
  dispatched := []

/-- Test `adkUrl.startsWith('/')`, distinguishing a root-relative proxy
path from an absolute URL.  A JS string starts with `"/"` exactly when
its first character is `/`. -/
def isRootRelative (s : String) : Bool :=
  match s.data with
  | [] => false
  | c :: _ => c = '/'

/-- Target origin computation `adkUrl.startsWith('/') ? window.location.origin : adkUrl` — the
`targetOrigin` both `sendMessage` implementations pass to `postMessage`. -/
def targetOriginOf (adkUrl ownOrigin : String) : String :=
  if isRootRelative adkUrl then ownOrigin else adkUrl

/-- Function `sendMessage` of the hook (src/next.config.js lines 94-106).
`handleAvail` models `iframeRef.current?.contentWindow` being non-null,
`now` models `Date.now()`.  When the handle is absent the whole body is
skipped; otherwise the envelope is stamped and both dispatched and
appended to `messages`. -/
def sendMessage (adkUrl ownOrigin : String) (handleAvail : Bool) (now : Nat)
    (message : AdkMessage) (s : HookState) : HookState :=
  if handleAvail then
    let fullMessage : AdkMessage :=
      { message with source := some "parent-app", timestamp := some now }
    { s with
      dispatched := s.dispatched ++ [⟨fullMessage, targetOriginOf adkUrl ownOrigin⟩],
      messages := s.messages ++ [fullMessage] }
  else s

/-- Function `updateContext` of the hook (src/next.config.js lines 109-118): shallow
merge into the context cell, then attempt to send a `context_update`
envelope carrying the merged snapshot. -/
def updateContext (adkUrl ownOrigin : String) (handleAvail : Bool) (now : Nat)
    (newContext : AdkContextDelta) (s : HookState) : HookState :=
  let updatedContext := mergeContext s.context newContext
  sendMessage adkUrl ownOrigin handleAvail now
    { type := "context_update", payload := .ctx updatedContext }
    { s with context := updatedContext }

/-- List `expectedOrigins` computed inside the hook's `handleMessage`
(src/next.config.js lines 123-126): the document's own origin, plus the
raw `adkUrl` string when it is not root-relative. -/
def expectedOrigins (adkUrl ownOrigin : String) : List String :=
  [ownOrigin] ++ (if isRootRelative adkUrl then [] else [adkUrl])

/-- The hook's inbound trust decision: `expectedOrigins.includes(event.origin)`. -/
def hookTrusts (adkUrl ownOrigin eventOrigin : String) : Bool :=
  (expectedOrigins adkUrl ownOrigin).contains eventOrigin

/-- Function `handleMessage` of the hook (src/next.config.js lines 121-167).
Untrusted origins and payloads without `source === 'adk-ui'` return
early; accepted envelopes are appended to `messages` and then switched
on `type`.  The `ready` case flips the connection cells and sends an
`initialize` envelope carrying the context snapshot closed over at that
moment; the `error` case sets the status cell; every other case only
logs to the console (no state effect). -/
def handleMessage (adkUrl ownOrigin : String) (handleAvail : Bool) (now : Nat)
    (eventOrigin : String) (data : AdkMessage) (s : HookState) : HookState :=
  if hookTrusts adkUrl ownOrigin eventOrigin then
    if data.source = some "adk-ui" then
      let s1 := { s with messages := s.messages ++ [data] }
      match data.type with
      | "ready" =>
          sendMessage adkUrl ownOrigin handleAvail now
            { type := "initialize", payload := .ctx s.context }
            { s1 with isConnected := true, connectionStatus := .connected }
      | "error" => { s1 with connectionStatus := .error }
      | _ => s1
    else s
  else s

/-- Function `checkConnection` of the hook (src/next.config.js lines 177-195).
`fetchResult` is `none` for a transport failure (the `catch` branch) and
`some status` for a completed response; `response.ok` is the WHATWG
range 200-299. -/
def checkConnection (fetchResult : Option Nat) (s : HookState) : HookState :=
  match fetchResult with
  | some status =>
      if 200 ≤ status ∧ status < 300 then { s with connectionStatus := .connected }
      else { s with connectionStatus := .error }
  | none => { s with connectionStatus := .error }

/-- One event delivered to the hook on the browser main thread.  Each
event that can reach `sendMessage` records whether the iframe handle
happened to be available at that instant, and the clock reading. -/
inductive HookEvent where
  | recv (handleAvail : Bool) (now : Nat) (eventOrigin : String) (data : AdkMessage)
  | update (handleAvail : Bool) (now : Nat) (newContext : AdkContextDelta)
  | send (handleAvail : Bool) (now : Nat) (message : AdkMessage)
  | health (fetchResult : Option Nat)
deriving DecidableEq, Repr

/-- Dispatch one event to the corresponding hook operation. -/
def stepHook (adkUrl ownOrigin : String) (e : HookEvent) (s : HookState) : HookState :=
  match e with
  | .recv avail now origin data => handleMessage adkUrl ownOrigin avail now origin data s
  | .update avail now p => updateContext adkUrl ownOrigin avail now p s
  | .send avail now m => sendMessage adkUrl ownOrigin avail now m s
  | .health r => checkConnection r s

/-- Run a finite sequence of events through the hook, in order. -/
def runHook (adkUrl ownOrigin : String) (es : List HookEvent) (s : HookState) : HookState :=
  es.foldl (fun s e => stepHook adkUrl ownOrigin e s) s

/-- The partial contexts passed to `updateContext`, in order, among a
sequence of events. -/
def updatesOf (es : List HookEvent) : List AdkContextDelta :=
  es.filterMap (fun e => match e with
    | .update _ _ p => some p
    | _ => none)

/-- The inbound envelopes a sequence of events makes the hook accept:
trusted origin and `source === 'adk-ui'`. -/
def acceptedInbound (adkUrl ownOrigin : String) (es : List HookEvent) : List AdkMessage :=
  es.filterMap (fun e => match e with
    | .recv _ _ origin data =>
        if hookTrusts adkUrl ownOrigin origin ∧ data.source = some "adk-ui"
        then some data else none
    | _ => none)

/-- Whether an event carries `handleAvail = true` (the hook as written
never assigns `iframeRef`, so in its reachable executions every event
carries `false`). -/
def eventHandleAvail : HookEvent → Bool
  | .recv avail _ _ _ => avail
  | .update avail _ _ => avail
  | .send avail _ _ => avail
  | .health _ => false

/-- Split a character list at the first `://` separator, returning the
part before it and the part after it. -/
def splitAtSchemeSep : List Char → Option (List Char × List Char)
  | [] => none
  | ':' :: '/' :: '/' :: rest => some ([], rest)
  | c :: rest =>
      match splitAtSchemeSep rest with
      | some (pre, post) => some (c :: pre, post)
      | none => none

/-- Keep characters up to (excluding) the first `/`. -/
def takeUntilSlash : List Char → List Char
  | [] => []
  | '/' :: _ => []
  | c :: rest => c :: takeUntilSlash rest

/-- Origin of an absolute URL, `new URL(adkUrl).origin`: the scheme
together with the authority part, i.e. everything up to the first `/`
after the `://` separator. -/
def urlOrigin (url : String) : String :=
  match splitAtSchemeSep url.data with
  | none => url
  | some (scheme, rest) => ⟨scheme ++ [':', '/', '/'] ++ takeUntilSlash rest⟩

/-- Trust decision of `AdkEmbed.handleMessage` (src/unnamed/part_000 lines
58-63): accept when the event origin equals the ADK origin (own origin
for a root-relative target, `new URL(adkUrl).origin` otherwise) or the
document's own origin. -/
def embedTrusts (adkUrl ownOrigin eventOrigin : String) : Bool :=
  let adkOrigin := if isRootRelative adkUrl then ownOrigin else urlOrigin adkUrl
  eventOrigin = adkOrigin || eventOrigin = ownOrigin

/-- Function `AdkEmbed.sendMessage` (src/unnamed/part_000 lines 71-82):
no state cell is involved; the observable effect is either nothing (no
iframe handle) or a single `postMessage` of the stamped envelope. -/
def embedSendMessage (adkUrl ownOrigin : String) (handleAvail : Bool) (now : Nat)
    (message : AdkMessage) : Option Dispatch :=
  if handleAvail then
    some ⟨{ message with source := some "parent-app", timestamp := some now },
          targetOriginOf adkUrl ownOrigin⟩
  else none

theorem sendMessage_context (adkUrl ownOrigin : String) (avail : Bool) (now : Nat)
    (m : AdkMessage) (s : HookState) :
    (sendMessage adkUrl ownOrigin avail now m s).context = s.context := by
  unfold sendMessage
  split <;> rfl

theorem sendMessage_isConnected (adkUrl ownOrigin : String) (avail : Bool) (now : Nat)
    (m : AdkMessage) (s : HookState) :
    (sendMessage adkUrl ownOrigin avail now m s).isConnected = s.isConnected := by
  unfold sendMessage
  split <;> rfl

theorem updateContext_context (adkUrl ownOrigin : String) (avail : Bool) (now : Nat)
    (p : AdkContextDelta) (s : HookState) :
    (updateContext adkUrl ownOrigin avail now p s).context = mergeContext s.context p := by
  unfold updateContext
  rw [sendMessage_context]

theorem handleMessage_context (adkUrl ownOrigin : String) (avail : Bool) (now : Nat)
    (origin : String) (data : AdkMessage) (s : HookState) :
    (handleMessage adkUrl ownOrigin avail now origin data s).context = s.context := by
  unfold handleMessage
  split
  · split
    · split
      · rw [sendMessage_context]
      · rfl
      · rfl
    · rfl
  · rfl

theorem checkConnection_context (r : Option Nat) (s : HookState) :
    (checkConnection r s).context = s.context := by
  unfold checkConnection
  rcases r with _ | status
  · rfl
  · dsimp only
    split <;> rfl

theorem runHook_cons (adkUrl ownOrigin : String) (e : HookEvent) (es : List HookEvent)
    (s : HookState) :
    runHook adkUrl ownOrigin (e :: es) s
      = runHook adkUrl ownOrigin es (stepHook adkUrl ownOrigin e s) := rfl

theorem runHook_context (adkUrl ownOrigin : String) (es : List HookEvent) (s : HookState) :
    (runHook adkUrl ownOrigin es s).context
      = (updatesOf es).foldl mergeContext s.context := by
  induction es generalizing s with
  | nil => rfl
  | cons e es ih =>
      rw [runHook_cons, ih]
      cases e with
      | recv avail now origin data =>
          simp [updatesOf, List.filterMap_cons, stepHook, handleMessage_context]
      | update avail now p =>
          simp [updatesOf, List.filterMap_cons, stepHook, updateContext_context]
      | send avail now m =>
          simp [updatesOf, List.filterMap_cons, stepHook, sendMessage_context]
      | health r =>
          simp [updatesOf, List.filterMap_cons, stepHook, checkConnection_context]

/-- C1: for every initial context and every finite sequence of
`updateContext` calls interleaved with arbitrary other hook events, the
resulting context snapshot equals the left-fold shallow merge of the
partials over the initial context (first conjunct), where the merge
overwrites exactly the keys present in the partial and leaves absent
keys unchanged (second conjunct); the connection state at each call is
irrelevant since the events and the starting state are arbitrary. -/
theorem adk_C1_context_is_foldl_shallow_merge :
    (∀ (adkUrl ownOrigin : String) (es : List HookEvent) (s : HookState),
      (runHook adkUrl ownOrigin es s).context
        = (updatesOf es).foldl mergeContext s.context)
    ∧ (∀ (c : AdkContext) (p : AdkContextDelta) (v : String),
        (p.agentName = some v → (mergeContext c p).agentName = some v)
        ∧ (p.agentName = none → (mergeContext c p).agentName = c.agentName)
        ∧ (p.sessionToken = some v → (mergeContext c p).sessionToken = some v)
        ∧ (p.sessionToken = none → (mergeContext c p).sessionToken = c.sessionToken)
        ∧ (p.userId = some v → (mergeContext c p).userId = some v)
        ∧ (p.userId = none → (mergeContext c p).userId = c.userId)
        ∧ (p.applicationId = some v → (mergeContext c p).applicationId = some v)
        ∧ (p.applicationId = none → (mergeContext c p).applicationId = c.applicationId)
        ∧ (p.controlId = some v → (mergeContext c p).controlId = some v)
        ∧ (p.controlId = none → (mergeContext c p).controlId = c.controlId)) := by
  refine ⟨runHook_context, fun c p v => ?_⟩
  refine ⟨?_, ?_, ?_, ?_, ?_, ?_, ?_, ?_, ?_, ?_⟩ <;>
    (intro h; simp [mergeContext, overwrite, h])

/-- Witness for C1 at a concrete input: one `updateContext` call setting
`applicationId` over the empty initial context. -/
theorem adk_C1_context_is_foldl_shallow_merge_witness :
    (runHook "/adk" "http://localhost:3000"
        [.update false 5 { applicationId := some "CustomerPortal" }]
        (initHookState {})).context
      = (updatesOf [.update false 5 { applicationId := some "CustomerPortal" }]).foldl
          mergeContext (initHookState {}).context
    ∧ (mergeContext {} { applicationId := some "CustomerPortal" }).applicationId
        = some "CustomerPortal"
    ∧ (mergeContext { userId := some "u" } { applicationId := some "CustomerPortal" }).userId
        = some "u" :=
  ⟨adk_C1_context_is_foldl_shallow_merge.1 _ _ _ _,
   (adk_C1_context_is_foldl_shallow_merge.2 {} _ "CustomerPortal").2.2.2.2.2.2.1 rfl,
   ((adk_C1_context_is_foldl_shallow_merge.2 { userId := some "u" }
      { applicationId := some "CustomerPortal" } "u").2.2.2.2.2.1) rfl⟩

/-- C6: a received message whose origin is not in the trusted set, or
whose payload does not carry `source === 'adk-ui'`, leaves the hook
state entirely unchanged — nothing is logged, no connection cell moves,
nothing is dispatched, and no error is raised (the function is total). -/
theorem adk_C6_untrusted_or_unmarked_is_dropped (adkUrl ownOrigin : String)
    (avail : Bool) (now : Nat) (origin : String) (data : AdkMessage) (s : HookState)
    (h : hookTrusts adkUrl ownOrigin origin = false ∨ data.source ≠ some "adk-ui") :
    handleMessage adkUrl ownOrigin avail now origin data s = s := by
  unfold handleMessage
  rcases h with h | h
  · simp [h]
  · simp [h]

/-- Witness for C6: an event from an unrelated origin, and a
trusted-origin event lacking the `adk-ui` source marker, both leave the
initial state untouched. -/
theorem adk_C6_untrusted_or_unmarked_is_dropped_witness :
    handleMessage "/adk" "http://localhost:3000" true 7 "http://evil.example"
        { type := "ready", source := some "adk-ui" } (initHookState {})
      = initHookState {}
    ∧ handleMessage "/adk" "http://localhost:3000" true 7 "http://localhost:3000"
        { type := "ready" } (initHookState {})
      = initHookState {} :=
  ⟨adk_C6_untrusted_or_unmarked_is_dropped _ _ _ _ _ _ _ (Or.inl (by decide)),
   adk_C6_untrusted_or_unmarked_is_dropped _ _ _ _ _ _ _ (Or.inr (by decide))⟩

/-- C7: with no peer handle, `sendMessage` is a silent no-op (total, log
unchanged) in both the hook and `AdkEmbed`; with the handle available,
the dispatched envelope is the argument stamped with
`source = 'parent-app'` and the sender timestamp. -/
theorem adk_C7_send_noop_without_handle (adkUrl ownOrigin : String) (now : Nat)
    (m : AdkMessage) (s : HookState) :
    sendMessage adkUrl ownOrigin false now m s = s
    ∧ (sendMessage adkUrl ownOrigin true now m s).messages
        = s.messages ++ [{ m with source := some "parent-app", timestamp := some now }]
    ∧ (sendMessage adkUrl ownOrigin true now m s).dispatched
        = s.dispatched ++ [⟨{ m with source := some "parent-app", timestamp := some now },
                            targetOriginOf adkUrl ownOrigin⟩]
    ∧ embedSendMessage adkUrl ownOrigin false now m = none
    ∧ embedSendMessage adkUrl ownOrigin true now m
        = some ⟨{ m with source := some "parent-app", timestamp := some now },
                targetOriginOf adkUrl ownOrigin⟩ :=
  ⟨rfl, rfl, rfl, rfl, rfl⟩

/-- C8: an accepted envelope whose type is neither `ready` nor `error`
only appends itself to the message log: every other state cell and the
dispatch trace stay exactly as they were, for unknown types as much as
for `agent_response` / `status_update` / `navigation_request`. -/
theorem adk_C8_other_types_only_logged (adkUrl ownOrigin : String) (avail : Bool)
    (now : Nat) (origin : String) (data : AdkMessage) (s : HookState)
    (ht : hookTrusts adkUrl ownOrigin origin = true)
    (hs : data.source = some "adk-ui")
    (hr : data.type ≠ "ready") (he : data.type ≠ "error") :
    handleMessage adkUrl ownOrigin avail now origin data s
      = { s with messages := s.messages ++ [data] } := by
  unfold handleMessage
  rw [ht, if_pos rfl, if_pos hs]
  split
  · next hty => exact absurd hty hr
  · next hty => exact absurd hty he
  · rfl

/-- Witness for C8: an accepted `agent_response` envelope and an
accepted unknown-typed envelope are logged without touching the
connection cells. -/
theorem adk_C8_other_types_only_logged_witness :
    handleMessage "/adk" "http://localhost:3000" true 7 "http://localhost:3000"
        { type := "agent_response", payload := .blob "hi", source := some "adk-ui" }
        (initHookState {})
      = { initHookState {} with
          messages := (initHookState {}).messages
            ++ [{ type := "agent_response", payload := .blob "hi",
                  source := some "adk-ui" }] }
    ∧ handleMessage "/adk" "http://localhost:3000" false 7 "http://localhost:3000"
        { type := "mystery_extension", source := some "adk-ui" }
        (initHookState {})
      = { initHookState {} with
          messages := (initHookState {}).messages
            ++ [{ type := "mystery_extension", source := some "adk-ui" }] } :=
  ⟨adk_C8_other_types_only_logged _ _ _ _ _ _ _ (by decide) rfl (by decide) (by decide),
   adk_C8_other_types_only_logged _ _ _ _ _ _ _ (by decide) rfl (by decide) (by decide)⟩

/-- C3: with the peer handle available, an accepted `ready` envelope
moves the hook from any prior state to `connected` (both cells) and
causes exactly one outbound `initialize` dispatch whose payload is the
context snapshot current at that moment; the log gains the received
`ready` and the sent `initialize`. -/
theorem adk_C3_ready_connects_and_initializes (adkUrl ownOrigin : String) (now : Nat)
    (origin : String) (data : AdkMessage) (s : HookState)
    (ht : hookTrusts adkUrl ownOrigin origin = true)
    (hs : data.source = some "adk-ui")
    (hty : data.type = "ready") :
    handleMessage adkUrl ownOrigin true now origin data s
      = { s with
          isConnected := true,
          connectionStatus := .connected,
          messages := s.messages
            ++ [data,
                { type := "initialize", payload := .ctx s.context,
                  source := some "parent-app", timestamp := some now }],
          dispatched := s.dispatched
            ++ [⟨{ type := "initialize", payload := .ctx s.context,
                   source := some "parent-app", timestamp := some now },
                 targetOriginOf adkUrl ownOrigin⟩] } := by
  unfold handleMessage
  rw [ht, if_pos rfl, if_pos hs]
  split
  · simp [sendMessage]
  · next h => rw [hty] at h; exact absurd h (by decide)
  · next h _ => exact absurd hty h

/-- Witness for C3: a `ready` envelope received from the own origin with
the handle available, starting from the `error` status. -/
theorem adk_C3_ready_connects_and_initializes_witness :
    handleMessage "/adk" "http://localhost:3000" true 9 "http://localhost:3000"
        { type := "ready", source := some "adk-ui" }
        { initHookState { userId := some "u" } with connectionStatus := .error }
      = { { initHookState { userId := some "u" } with connectionStatus := .error } with
          isConnected := true,
          connectionStatus := .connected,
          messages := [{ type := "ready", source := some "adk-ui" },
                       { type := "initialize", payload := .ctx { userId := some "u" },
                         source := some "parent-app", timestamp := some 9 }],
          dispatched := [⟨{ type := "initialize", payload := .ctx { userId := some "u" },
                            source := some "parent-app", timestamp := some 9 },
                          "http://localhost:3000"⟩] } := by
  have h := adk_C3_ready_connects_and_initializes "/adk" "http://localhost:3000" 9
    "http://localhost:3000" { type := "ready", source := some "adk-ui" }
    { initHookState { userId := some "u" } with connectionStatus := .error }
    (by decide) rfl rfl
  simpa [targetOriginOf, isRootRelative] using h

/-- C5 counterexample: a completed response with status 204 (not 200) is
accepted by `response.ok`, so the code sets the state to `connected`
where the claim ("connected if and only if HTTP 200") demands `error`. -/
theorem adk_C5_cex_status_204_gives_connected :
    (checkConnection (some 204) (initHookState {})).connectionStatus = .connected
    ∧ (204 : Nat) ≠ 200 := by
  constructor
  · rfl
  · decide

/-- C5 (amended): every health check is total and produces exactly one
outcome: `connected` if and only if the GET completed with a success
status in 200-299 (`response.ok`), `error` on any other status or any
transport failure — including when the state was `connected` before —
and a later successful check sets it back to `connected`; nothing but
the status cell is touched. -/
theorem adk_C5_health_check_outcome (r : Option Nat) (s : HookState) :
    ((checkConnection r s).connectionStatus = .connected
        ↔ ∃ status, r = some status ∧ 200 ≤ status ∧ status < 300)
    ∧ ((checkConnection r s).connectionStatus = .connected
        ∨ (checkConnection r s).connectionStatus = .error)
    ∧ (checkConnection none { s with connectionStatus := .connected }).connectionStatus
        = .error
    ∧ (checkConnection (some 503)
        { s with connectionStatus := .connected }).connectionStatus = .error
    ∧ (checkConnection (some 200) (checkConnection none s)).connectionStatus = .connected
    ∧ (checkConnection r s).isConnected = s.isConnected
    ∧ (checkConnection r s).messages = s.messages
    ∧ (checkConnection r s).context = s.context
    ∧ (checkConnection r s).dispatched = s.dispatched := by
  rcases r with _ | status
  · refine ⟨by simp [checkConnection], ?_, rfl, rfl, rfl, rfl, rfl, rfl, rfl⟩
    right; rfl
  · by_cases h : 200 ≤ status ∧ status < 300
    · refine ⟨?_, ?_, rfl, rfl, rfl, ?_, ?_, ?_, ?_⟩ <;>
        simp [checkConnection, h]
    · refine ⟨?_, ?_, rfl, rfl, rfl, ?_, ?_, ?_, ?_⟩ <;>
        simp [checkConnection, h]

/-- Witness for C5 at concrete inputs: status 200 connects, a transport
failure from `connected` errors, and 200 after a failure reconnects. -/
theorem adk_C5_health_check_outcome_witness :
    ((checkConnection (some 200) (initHookState {})).connectionStatus = .connected
      ↔ ∃ status, some 200 = some status ∧ 200 ≤ status ∧ status < 300)
    ∧ (checkConnection none
        { initHookState {} with connectionStatus := .connected }).connectionStatus
        = .error
    ∧ (checkConnection (some 200)
        (checkConnection none (initHookState {}))).connectionStatus = .connected :=
  ⟨(adk_C5_health_check_outcome (some 200) (initHookState {})).1,
   (adk_C5_health_check_outcome none (initHookState {})).2.2.1,
   (adk_C5_health_check_outcome (some 200) (initHookState {})).2.2.2.2.1⟩

/-- C2 counterexample: with configured target
`http://localhost:8000/app` (an absolute cross-origin URL whose origin
is `http://localhost:8000`), the hook's filter rejects the peer's
actual origin — it compares against the full URL string — while
`AdkEmbed`'s filter accepts it; so the claim, which asserts the
URL-origin rule for both inbound filters, is false for the hook. -/
theorem adk_C2_cex_hook_rejects_peer_origin :
    urlOrigin "http://localhost:8000/app" = "http://localhost:8000"
    ∧ hookTrusts "http://localhost:8000/app" "http://localhost:3000"
        "http://localhost:8000" = false
    ∧ embedTrusts "http://localhost:8000/app" "http://localhost:3000"
        "http://localhost:8000" = true
    ∧ isRootRelative "http://localhost:8000/app" = false := by
  refine ⟨by decide, by decide, by decide, by decide⟩

/-- C2 (amended): both inbound filters always accept the document's own
origin, and for a root-relative target accept nothing else.  For an
absolute target, `AdkEmbed`'s filter additionally accepts exactly the
origin of that URL, but the hook's filter compares against the full
configured URL string, so beyond the own origin it accepts exactly the
string `configuredTarget` itself — which coincides with the peer origin
only when the configured target is exactly an origin with no path. -/
theorem adk_C2_trust_decision (adkUrl ownOrigin origin : String) :
    hookTrusts adkUrl ownOrigin ownOrigin = true
    ∧ embedTrusts adkUrl ownOrigin ownOrigin = true
    ∧ (isRootRelative adkUrl = true →
        (hookTrusts adkUrl ownOrigin origin = true ↔ origin = ownOrigin)
        ∧ (embedTrusts adkUrl ownOrigin origin = true ↔ origin = ownOrigin))
    ∧ (isRootRelative adkUrl = false →
        (hookTrusts adkUrl ownOrigin origin = true
          ↔ origin = ownOrigin ∨ origin = adkUrl)
        ∧ (embedTrusts adkUrl ownOrigin origin = true
          ↔ origin = ownOrigin ∨ origin = urlOrigin adkUrl)) := by
  refine ⟨?_, ?_, fun h => ⟨?_, ?_⟩, fun h => ⟨?_, ?_⟩⟩
  · simp [hookTrusts, expectedOrigins]
  · simp [embedTrusts]
  · simp [hookTrusts, expectedOrigins, h]
  · simp [embedTrusts, h]
  · simp [hookTrusts, expectedOrigins, h]
  · simp [embedTrusts, h]
    tauto

/-- Witness for C2 at concrete inputs: with the root-relative default
target `/adk` only the own origin is trusted by the hook, and with an
absolute path-free target `AdkEmbed` trusts that URL's origin. -/
theorem adk_C2_trust_decision_witness :
    hookTrusts "/adk" "http://localhost:3000" "http://localhost:3000" = true
    ∧ (hookTrusts "/adk" "http://localhost:3000" "http://evil.example" = true
        ↔ ("http://evil.example" : String) = "http://localhost:3000")
    ∧ (embedTrusts "http://localhost:8000" "http://localhost:3000"
          "http://localhost:8000" = true
        ↔ ("http://localhost:8000" : String) = "http://localhost:3000"
          ∨ ("http://localhost:8000" : String) = urlOrigin "http://localhost:8000") :=
  ⟨(adk_C2_trust_decision "/adk" "http://localhost:3000" "x").1,
   ((adk_C2_trust_decision "/adk" "http://localhost:3000"
      "http://evil.example").2.2.1 (by decide)).1,
   ((adk_C2_trust_decision "http://localhost:8000" "http://localhost:3000"
      "http://localhost:8000").2.2.2 (by decide)).2⟩

/-- Own origin of the document in the §8 scenario. -/
def scenarioOwn : String := "http://localhost:3000"

/-- The trusted `ready` envelope of the §8 scenario. -/
def scenarioReadyMsg : AdkMessage := { type := "ready", source := some "adk-ui" }

/-- The trusted `error` envelope of the §8 scenario. -/
def scenarioErrorMsg : AdkMessage :=
  { type := "error", source := some "adk-ui", payload := .blob "boom" }

/-- Scenario step 1: `updateContext({applicationId: "CustomerPortal"})`
with no peer handle, starting disconnected with empty context. -/
def scenarioS1 : HookState :=
  updateContext "/adk" scenarioOwn false 1 { applicationId := some "CustomerPortal" }
    (initHookState {})

/-- Scenario step 2: the handle is now available; receive the trusted
`ready` envelope. -/
def scenarioS2 : HookState :=
  handleMessage "/adk" scenarioOwn true 2 scenarioOwn scenarioReadyMsg scenarioS1

/-- Scenario step 3: receive the trusted `error` envelope. -/
def scenarioS3 : HookState :=
  handleMessage "/adk" scenarioOwn true 3 scenarioOwn scenarioErrorMsg scenarioS2

/-- The `initialize` envelope the ready handler sends in the scenario. -/
def scenarioInitMsg : AdkMessage :=
  { type := "initialize", payload := .ctx { applicationId := some "CustomerPortal" },
    source := some "parent-app", timestamp := some 2 }

/-- C4 counterexample: in the §8 scenario the log does hold exactly the
three claimed entries, but the received `ready` comes first — the code
appends the accepted envelope to the log before the `ready` case sends
`initialize` — so the claimed order (initialize first) is false. -/
theorem adk_C4_cex_log_order :
    scenarioS3.messages = [scenarioReadyMsg, scenarioInitMsg, scenarioErrorMsg]
    ∧ scenarioS3.messages ≠ [scenarioInitMsg, scenarioReadyMsg, scenarioErrorMsg] := by
  constructor
  · rfl
  · decide

/-- C4 (amended): in the §8 scenario the final connection state is
`error` and the message log contains exactly three entries — the
received `ready`, then the sent `initialize`, then the received
`error`, in that order; the dropped `context_update` attempt is neither
logged nor dispatched. -/
theorem adk_C4_scenario :
    scenarioS1.context = { applicationId := some "CustomerPortal" }
    ∧ scenarioS1.messages = []
    ∧ scenarioS1.dispatched = []
    ∧ scenarioS2.connectionStatus = .connected
    ∧ scenarioS3.connectionStatus = .error
    ∧ scenarioS3.messages = [scenarioReadyMsg, scenarioInitMsg, scenarioErrorMsg]
    ∧ scenarioS3.dispatched = [⟨scenarioInitMsg, scenarioOwn⟩] := by
  refine ⟨rfl, rfl, rfl, rfl, rfl, rfl, rfl⟩

/-- The envelope (if any) that one event makes the hook accept into the
log when the peer handle is unavailable. -/
def acceptedOfEvent (adkUrl ownOrigin : String) (e : HookEvent) : List AdkMessage :=
  match e with
  | .recv _ _ origin data =>
      if hookTrusts adkUrl ownOrigin origin ∧ data.source = some "adk-ui"
      then [data] else []
  | _ => []

theorem acceptedInbound_cons (adkUrl ownOrigin : String) (e : HookEvent)
    (es : List HookEvent) :
    acceptedInbound adkUrl ownOrigin (e :: es)
      = acceptedOfEvent adkUrl ownOrigin e ++ acceptedInbound adkUrl ownOrigin es := by
  cases e with
  | recv avail now origin data =>
      by_cases hc : hookTrusts adkUrl ownOrigin origin = true
        ∧ data.source = some "adk-ui"
      · simp [acceptedInbound, acceptedOfEvent, List.filterMap_cons, hc]
      · simp [acceptedInbound, acceptedOfEvent, List.filterMap_cons, hc]
  | update avail now p => simp [acceptedInbound, acceptedOfEvent, List.filterMap_cons]
  | send avail now m => simp [acceptedInbound, acceptedOfEvent, List.filterMap_cons]
  | health r => simp [acceptedInbound, acceptedOfEvent, List.filterMap_cons]

theorem checkConnection_messages (r : Option Nat) (s : HookState) :
    (checkConnection r s).messages = s.messages := by
  unfold checkConnection
  rcases r with _ | status
  · rfl
  · dsimp only
    split <;> rfl

theorem checkConnection_dispatched (r : Option Nat) (s : HookState) :
    (checkConnection r s).dispatched = s.dispatched := by
  unfold checkConnection
  rcases r with _ | status
  · rfl
  · dsimp only
    split <;> rfl

theorem stepHook_noHandle (adkUrl ownOrigin : String) (e : HookEvent) (s : HookState)
    (h : eventHandleAvail e = false) :
    (stepHook adkUrl ownOrigin e s).messages
      = s.messages ++ acceptedOfEvent adkUrl ownOrigin e
    ∧ (stepHook adkUrl ownOrigin e s).dispatched = s.dispatched := by
  cases e with
  | recv avail now origin data =>
      simp only [eventHandleAvail] at h
      subst h
      simp only [stepHook, acceptedOfEvent]
      unfold handleMessage
      by_cases ht : hookTrusts adkUrl ownOrigin origin = true
      · by_cases hs : data.source = some "adk-ui"
        · simp only [ht, hs, if_true, if_pos rfl]
          split <;> simp [sendMessage, ht, hs]
        · simp [ht, hs]
      · simp [ht]
  | update avail now p =>
      simp only [eventHandleAvail] at h
      subst h
      simp [stepHook, acceptedOfEvent, updateContext, sendMessage]
  | send avail now m =>
      simp only [eventHandleAvail] at h
      subst h
      simp [stepHook, acceptedOfEvent, sendMessage]
  | health r =>
      simp [stepHook, acceptedOfEvent, checkConnection_messages, checkConnection_dispatched]

/-- C9: the hook as written never assigns `iframeRef` (it is initialized
to `null` at src/next.config.js line 87, assigned nowhere, and not
returned at lines 205-213), so every event in a reachable execution
carries `handleAvail = false`; under that condition nothing is ever
dispatched and the message log is exactly the initial log followed by
the accepted inbound envelopes, in order. -/
theorem adk_C9_hook_never_dispatches (adkUrl ownOrigin : String)
    (es : List HookEvent) (s : HookState)
    (h : ∀ e ∈ es, eventHandleAvail e = false) :
    (runHook adkUrl ownOrigin es s).messages
      = s.messages ++ acceptedInbound adkUrl ownOrigin es
    ∧ (runHook adkUrl ownOrigin es s).dispatched = s.dispatched := by
  induction es generalizing s with
  | nil => simp [runHook, acceptedInbound]
  | cons e es ih =>
      have he : eventHandleAvail e = false := h e (List.mem_cons_self e es)
      have hrest : ∀ x ∈ es, eventHandleAvail x = false :=
        fun x hx => h x (List.mem_cons_of_mem e hx)
      obtain ⟨m1, d1⟩ := stepHook_noHandle adkUrl ownOrigin e s he
      obtain ⟨m2, d2⟩ := ih (stepHook adkUrl ownOrigin e s) hrest
      constructor
      · rw [runHook_cons, m2, m1, acceptedInbound_cons, List.append_assoc]
      · rw [runHook_cons, d2, d1]

/-- Witness for C9: a short no-handle run that accepts a `ready`, drops
an untrusted envelope, merges one context update, and fails one health
check — the log holds only the accepted inbound envelope and nothing
was dispatched. -/
theorem adk_C9_hook_never_dispatches_witness :
    (runHook "/adk" "http://localhost:3000"
        [.update false 1 { applicationId := some "CustomerPortal" },
         .recv false 2 "http://localhost:3000" { type := "ready", source := some "adk-ui" },
         .recv false 3 "http://evil.example" { type := "ready", source := some "adk-ui" },
         .health none]
        (initHookState {})).messages
      = (initHookState {}).messages
        ++ acceptedInbound "/adk" "http://localhost:3000"
            [.update false 1 { applicationId := some "CustomerPortal" },
             .recv false 2 "http://localhost:3000"
               { type := "ready", source := some "adk-ui" },
             .recv false 3 "http://evil.example"
               { type := "ready", source := some "adk-ui" },
             .health none]
    ∧ (runHook "/adk" "http://localhost:3000"
        [.update false 1 { applicationId := some "CustomerPortal" },
         .recv false 2 "http://localhost:3000" { type := "ready", source := some "adk-ui" },
         .recv false 3 "http://evil.example" { type := "ready", source := some "adk-ui" },
         .health none]
        (initHookState {})).dispatched = (initHookState {}).dispatched :=
  adk_C9_hook_never_dispatches "/adk" "http://localhost:3000" _ (initHookState {})
    (by decide)

theorem updateContext_isConnected (adkUrl ownOrigin : String) (avail : Bool)
    (now : Nat) (p : AdkContextDelta) (s : HookState) :
    (updateContext adkUrl ownOrigin avail now p s).isConnected = s.isConnected := by
  unfold updateContext
  rw [sendMessage_isConnected]

theorem checkConnection_isConnected (r : Option Nat) (s : HookState) :
    (checkConnection r s).isConnected = s.isConnected := by
  unfold checkConnection
  rcases r with _ | status
  · rfl
  · dsimp only
    split <;> rfl

theorem handleMessage_isConnected_cases (adkUrl ownOrigin : String) (avail : Bool)
    (now : Nat) (origin : String) (data : AdkMessage) (s : HookState) :
    (handleMessage adkUrl ownOrigin avail now origin data s).isConnected = s.isConnected
    ∨ ((handleMessage adkUrl ownOrigin avail now origin data s).isConnected = true
        ∧ hookTrusts adkUrl ownOrigin origin = true
        ∧ data.source = some "adk-ui" ∧ data.type = "ready") := by
  unfold handleMessage
  split
  · next ht =>
      split
      · next hs =>
          split
          · next hty => exact Or.inr ⟨by rw [sendMessage_isConnected], ht, hs, hty⟩
          · exact Or.inl rfl
          · exact Or.inl rfl
      · exact Or.inl rfl
  · exact Or.inl rfl

/-- Whether an event is a received envelope the hook accepts as a
`ready` (trusted origin, `adk-ui` source, type `ready`) — the only kind
of event that can set `isConnected`. -/
def isAcceptedReady (adkUrl ownOrigin : String) (e : HookEvent) : Bool :=
  match e with
  | .recv _ _ origin data =>
      hookTrusts adkUrl ownOrigin origin && (data.source == some "adk-ui")
        && (data.type == "ready")
  | _ => false

/-- State reached by accepting a `ready` and then failing a health
check: the two connection indicators disagree. -/
def disagreeState : HookState :=
  checkConnection none
    (handleMessage "/adk" "http://localhost:3000" false 0 "http://localhost:3000"
      { type := "ready", source := some "adk-ui" } (initHookState {}))

/-- State reached by accepting a `ready` and then a trusted `error`
envelope: again `isConnected` stays true while the status is `error`. -/
def disagreeStateViaError : HookState :=
  handleMessage "/adk" "http://localhost:3000" false 1 "http://localhost:3000"
    { type := "error", source := some "adk-ui", payload := .blob "boom" }
    (handleMessage "/adk" "http://localhost:3000" false 0 "http://localhost:3000"
      { type := "ready", source := some "adk-ui" } (initHookState {}))

/-- C10: `isConnected` starts false, is monotone (no event ever resets
it), and is set only by an accepted `ready` envelope; after a failed
health check or a received `error` envelope the two exposed indicators
disagree (`isConnected = true` while `connectionStatus = 'error'`). -/
theorem adk_C10_isConnected_monotone :
    (∀ (adkUrl ownOrigin : String) (e : HookEvent) (s : HookState),
        s.isConnected = true →
          (stepHook adkUrl ownOrigin e s).isConnected = true)
    ∧ (∀ c, (initHookState c).isConnected = false)
    ∧ (∀ (adkUrl ownOrigin : String) (e : HookEvent) (s : HookState),
        (stepHook adkUrl ownOrigin e s).isConnected = true →
          s.isConnected = true ∨ isAcceptedReady adkUrl ownOrigin e = true)
    ∧ (disagreeState.isConnected = true ∧ disagreeState.connectionStatus = .error)
    ∧ (disagreeStateViaError.isConnected = true
        ∧ disagreeStateViaError.connectionStatus = .error) := by
  refine ⟨?_, fun c => rfl, ?_, ⟨rfl, rfl⟩, ⟨rfl, rfl⟩⟩
  · intro u o e s hs
    cases e with
    | recv a n origin data =>
        rcases handleMessage_isConnected_cases u o a n origin data s with h | h
        · show (handleMessage u o a n origin data s).isConnected = true
          rw [h]; exact hs
        · exact h.1
    | update a n p =>
        show (updateContext u o a n p s).isConnected = true
        rw [updateContext_isConnected]; exact hs
    | send a n m =>
        show (sendMessage u o a n m s).isConnected = true
        rw [sendMessage_isConnected]; exact hs
    | health r =>
        show (checkConnection r s).isConnected = true
        rw [checkConnection_isConnected]; exact hs
  · intro u o e s h
    cases e with
    | recv a n origin data =>
        rcases handleMessage_isConnected_cases u o a n origin data s with h2 | h2
        · left
          rw [← h2]
          exact h
        · right
          obtain ⟨_, ht, hsrc, hty⟩ := h2
          simp [isAcceptedReady, ht, hsrc, hty]
    | update a n p =>
        left
        rw [← updateContext_isConnected u o a n p s]
        exact h
    | send a n m =>
        left
        rw [← sendMessage_isConnected u o a n m s]
        exact h
    | health r =>
        left
        rw [← checkConnection_isConnected r s]
        exact h

/-- Witness for C10: monotonicity at a concrete connected state under a
failed health check, the concrete initial value, and the only-ready
characterization at a concrete accepted `ready` event. -/
theorem adk_C10_isConnected_monotone_witness :
    (stepHook "/adk" "http://localhost:3000" (.health none)
        { isConnected := true, connectionStatus := .connected, messages := [],
          context := {}, dispatched := [] }).isConnected = true
    ∧ (initHookState {}).isConnected = false
    ∧ ((initHookState {}).isConnected = true
        ∨ isAcceptedReady "/adk" "http://localhost:3000"
            (.recv false 0 "http://localhost:3000"
              { type := "ready", source := some "adk-ui" }) = true) :=
  ⟨adk_C10_isConnected_monotone.1 "/adk" "http://localhost:3000" (.health none)
      { isConnected := true, connectionStatus := .connected, messages := [],
        context := {}, dispatched := [] } rfl,
   adk_C10_isConnected_monotone.2.1 {},
   adk_C10_isConnected_monotone.2.2.1 "/adk" "http://localhost:3000"
      (.recv false 0 "http://localhost:3000"
        { type := "ready", source := some "adk-ui" })
      (initHookState {}) rfl⟩
